import Mathlib

/-!
Verification of the event-broadcast core of the Twilio live-calling backend
(src/backend/app.py): the `subscribers` set, `broadcast_event`, the
`/api/events` stream handler, and the inbound-call webhook handlers.

Modelling conventions:
- A subscriber channel (a Python `queue.Queue`) is identified by a `ChanId`
  and its buffer is a FIFO `List Event` (head = next element `q.get()`
  returns, tail = where `q.put_nowait` appends).
- The process-wide `subscribers` set is a `Finset ChanId`; channel buffers
  live in a total map `ChanId → List Event` so that a buffer survives
  removal from the set, as the Python object does.
- `q.put_nowait` may raise (the source wraps it in try/except); the oracle
  `bad : ChanId → Bool` marks the channels whose enqueue raises, and the
  normal-operation case is `bad c = false`.
- The `for q in list(subscribers)` loop of `broadcast_event` mutates each
  subscribed channel independently, so its net effect is the pointwise
  update written below; iteration order is unobservable.
-/

/-- One published event: the source builds the dict
`data = \x7b"event": event_type, "payload": payload\x7d` in `broadcast_event`
(app.py line 120) and enqueues that dict; `kind` and `payload` are its two
fields. Payload values in this program are strings read from the request
form or from the Twilio call object. -/
structure Event where
  kind : String
  payload : List (String × String)
deriving DecidableEq, Repr

/-- Identifier of one subscriber channel (one `queue.Queue` object). -/
abbrev ChanId := Nat

/-- State of the broadcast core: the `subscribers` set (app.py line 116) and
the buffer of every channel object, registered or not. -/
@[ext]
structure SysState where
  subs : Finset ChanId
  queues : ChanId → List Event

/-- Embeds `q.put_nowait(data)` (app.py line 123): appends at the tail, or
raises when the oracle marks the channel as failing. -/
def put_nowait (bad : ChanId → Bool) (c : ChanId) (q : List Event) (e : Event) :
    Except String (List Event) :=
  if bad c then Except.error "enqueue failed" else Except.ok (q ++ [e])

/-- Embeds `broadcast_event` (app.py lines 119-126): for every channel in the
`subscribers` set, try `put_nowait` and silently skip the channel on failure
(the `except Exception: pass` at lines 124-126). The function is total: no
per-channel failure reaches the caller. -/
def broadcast_event (bad : ChanId → Bool) (s : SysState) (e : Event) : SysState :=
  { s with
    queues := fun c =>
      if c ∈ s.subs then
        match put_nowait bad c (s.queues c) e with
        | Except.ok q2 => q2
        | Except.error _ => s.queues c
      else s.queues c }

/-- Embeds `q = queue.Queue(); subscribers.add(q)` (app.py lines 145-146):
the fresh queue `c` starts empty and joins the set. -/
def register (s : SysState) (c : ChanId) : SysState :=
  { subs := insert c s.subs, queues := Function.update s.queues c [] }

/-- Embeds `subscribers.discard(q)` (app.py line 158): removes the channel
from the set; the channel object and its buffer still exist. -/
def unregister (s : SysState) (c : ChanId) : SysState :=
  { s with subs := s.subs.erase c }

/-- Embeds one `q.get()` on a non-empty buffer: removes and returns the head.
On an empty buffer `q.get()` suspends, which `none` stands for. -/
def dequeue : List Event → Option (Event × List Event)
  | [] => none
  | e :: r => some (e, r)

/-- The sequence a consumer obtains from `n` successive `q.get()` calls
against a buffer, stopping if the buffer runs dry. -/
def observe : Nat → List Event → List Event
  | 0, _ => []
  | Nat.succ n, q =>
    match dequeue q with
    | none => []
    | some (e, r) => e :: observe n r

/-- Embeds the `", ".join`-style separator placement that `json.dumps` uses
between the members of a dict. -/
def joinComma : List String → String
  | [] => ""
  | [x] => x
  | x :: y :: xs => x ++ ", " ++ joinComma (y :: xs)

/-- Embeds how `json.dumps` renders one `"key": "value"` member of the flat
string-valued payload dict. -/
def dumpsPair (kv : String × String) : String :=
  "\"" ++ kv.1 ++ "\": \"" ++ kv.2 ++ "\""

/-- Embeds how `json.dumps` renders the payload dict itself. -/
def dumpsPayload (p : List (String × String)) : String :=
  "\x7b" ++ joinComma (p.map dumpsPair) ++ "\x7d"

/-- Embeds `json.dumps(data)` for `data = \x7b"event": kind, "payload": payload\x7d`
(app.py lines 120 and 154), with the default separators of `json.dumps`. -/
def dumps (e : Event) : String :=
  "\x7b\"event\": \"" ++ e.kind ++ "\", \"payload\": " ++ dumpsPayload e.payload ++ "\x7d"

/-- Embeds the frame the stream handler yields per event:
`f"data: \x7bjson.dumps(data)\x7d\n\n"` (app.py lines 151 and 154). -/
def sseFrame (e : Event) : String :=
  "data: " ++ dumps e ++ "\n\n"

/-- The synthetic hello event of app.py line 151:
`\x7b"event": "connected", "payload": \x7b\x7d\x7d`. -/
def connectedEvent : Event :=
  { kind := "connected", payload := [] }

/-- Denotation of the generator `stream()` (app.py lines 148-158): given the
sequence of events its `q.get()` calls deliver over the lifetime of the
connection, it yields the `connected` frame first and then one frame per
delivered event, in delivery order. -/
def stream (deliveries : List Event) : List String :=
  sseFrame connectedEvent :: deliveries.map sseFrame

/-- The three ways a stream connection ends (remote disconnect raises
GeneratorExit at a yield, server shutdown closes the generator, a write
failure ends the response). -/
inductive ExitReason
  | remoteDisconnect
  | serverShutdown
  | writeFailure
deriving DecidableEq, Repr

/-- One complete lifetime of the stream handler for channel `c`: it wrote the
first `written` frames of its output and then ended for reason `r`; the
`finally` clause (app.py lines 157-158) runs `subscribers.discard(q)` exactly
once on every one of the three exit paths. -/
def runHandler (s : SysState) (c : ChanId) (deliveries : List Event)
    (written : Nat) (r : ExitReason) : List String × SysState :=
  match r with
  | ExitReason.remoteDisconnect => ((stream deliveries).take written, unregister s c)
  | ExitReason.serverShutdown => ((stream deliveries).take written, unregister s c)
  | ExitReason.writeFailure => ((stream deliveries).take written, unregister s c)

/-- State of a consumer around `data = q.get()` (app.py line 153): either
suspended waiting on the buffer, or holding a dequeued event. -/
inductive ConsumerState
  | waiting (q : List Event)
  | got (e : Event) (q : List Event)
deriving DecidableEq, Repr

/-- One scheduler step of the suspended consumer: `q.get()` returns as soon
as the buffer is non-empty and keeps waiting otherwise. The program gives
`q.get()` no timeout and `queue.Queue` has no close operation, so no step
other than an element arriving can end the wait. -/
def consumerStep : ConsumerState → ConsumerState
  | ConsumerState.waiting [] => ConsumerState.waiting []
  | ConsumerState.waiting (e :: r) => ConsumerState.got e r
  | st => st

/-- Spec-side rendering of the payload members, written from the wording of
the wire format in spec.md section 6: `\x7b<key>: <value>, ...\x7d`, each key
and value a JSON string, members comma-separated. -/
def specPayloadEntries : List (String × String) → String
  | [] => ""
  | [kv] => "\"" ++ kv.1 ++ "\": \"" ++ kv.2 ++ "\""
  | kv :: kv2 :: rest =>
    "\"" ++ kv.1 ++ "\": \"" ++ kv.2 ++ "\"" ++ ", " ++ specPayloadEntries (kv2 :: rest)

/-- Spec-side wire frame, written from the wording of spec.md section 6:
`data: \x7b"event": "<kind>", "payload": \x7b<key>: <value>, ...\x7d\x7d`
followed by two newlines, one frame per event. -/
def specWireFrame (e : Event) : String :=
  "data: " ++
    ("\x7b\"event\": \"" ++ e.kind ++ "\", \"payload\": " ++
      ("\x7b" ++ specPayloadEntries e.payload ++ "\x7d") ++ "\x7d") ++ "\n\n"

/-- Everything returned by one of the inbound webhook handlers: the event it
publishes through `broadcast_event` and the TwiML verbs of the response it
returns. `dialNumber a n` stands for `Dial(caller_id=a)` with one nested
`<Number>n</Number>`, as `str()` of the twilio `VoiceResponse` renders it. -/
inductive Verb
  | dialNumber (callerId : String) (number : String)
  | say (text : String)
deriving DecidableEq, Repr

/-- The verbs accumulated on a twilio `VoiceResponse` object by
`vr.append(...)` and `vr.say(...)`, in order. -/
structure VoiceResponse where
  verbs : List Verb
deriving DecidableEq, Repr

/-- Embeds `request.form.get(k, "")` over the posted form, modelled as an
association list: missing fields default to the empty string. The handlers
call `request.form.get` with no default, which also returns a value that
formats as empty for a missing field. -/
def formGet (form : List (String × String)) (k : String) : String :=
  match form.find? (fun kv => kv.1 == k) with
  | some kv => kv.2
  | none => ""

/-- The payload both inbound handlers publish (app.py lines 267 and 285), in
the key order of the source dict. -/
def incomingPayload (form : List (String × String)) (which : String) :
    List (String × String) :=
  [("to", formGet form "To"), ("from", formGet form "From"),
    ("sid", formGet form "CallSid"), ("which", which)]

/-- Embeds `inbound_a` (app.py lines 261-276): publish the `incoming_call`
event first, then build the response; when `TWILIO_NUMBER_B` is non-empty
append a Dial with caller id `TWILIO_NUMBER_A` to `TWILIO_NUMBER_B`,
otherwise say the no-destination message. -/
def inbound_a (numA numB : String) (form : List (String × String)) :
    Event × VoiceResponse :=
  let ev : Event := { kind := "incoming_call", payload := incomingPayload form "A" }
  let vr : VoiceResponse := { verbs := [] }
  if numB ≠ "" then
    (ev, { verbs := vr.verbs ++ [Verb.dialNumber numA numB] })
  else
    (ev, { verbs := vr.verbs ++ [Verb.say "No destination configured for this number."] })

/-- Embeds `inbound_b` (app.py lines 279-293): publish the `incoming_call`
event first, then build the response. In the branch where `TWILIO_NUMBER_A`
is non-empty the source constructs `dial = Dial(caller_id=TWILIO_NUMBER_B)`
and calls `dial.number(TWILIO_NUMBER_A)` but never calls `vr.append(dial)`
(compare line 273 in `inbound_a`), so the response keeps no verbs. -/
def inbound_b (numA numB : String) (form : List (String × String)) :
    Event × VoiceResponse :=
  let ev : Event := { kind := "incoming_call", payload := incomingPayload form "B" }
  let vr : VoiceResponse := { verbs := [] }
  if numA ≠ "" then
    let dial := Verb.dialNumber numB numA
    (ev, vr)
  else
    (ev, { verbs := vr.verbs ++ [Verb.say "No destination configured for this number."] })

/- Helper lemmas about the registry operations. -/

theorem joinComma_map_dumpsPair (l : List (String × String)) :
    joinComma (l.map dumpsPair) = specPayloadEntries l := by
  induction l with
  | nil => rfl
  | cons kv tail ih =>
    cases tail with
    | nil => rfl
    | cons kv2 rest =>
      simp only [List.map, joinComma, specPayloadEntries, dumpsPair] at *
      rw [ih]

theorem broadcast_subs (bad : ChanId → Bool) (s : SysState) (e : Event) :
    (broadcast_event bad s e).subs = s.subs :=
  rfl

theorem broadcast_queues_mem (bad : ChanId → Bool) (s : SysState) (e : Event)
    (c : ChanId) (hc : c ∈ s.subs) (hb : bad c = false) :
    (broadcast_event bad s e).queues c = s.queues c ++ [e] := by
  simp [broadcast_event, put_nowait, hc, hb]

theorem broadcast_queues_bad (bad : ChanId → Bool) (s : SysState) (e : Event)
    (c : ChanId) (hc : c ∈ s.subs) (hb : bad c = true) :
    (broadcast_event bad s e).queues c = s.queues c := by
  simp [broadcast_event, put_nowait, hc, hb]

theorem broadcast_queues_not_mem (bad : ChanId → Bool) (s : SysState) (e : Event)
    (c : ChanId) (hc : c ∉ s.subs) :
    (broadcast_event bad s e).queues c = s.queues c := by
  simp [broadcast_event, hc]

theorem observe_length_self (l : List Event) : observe l.length l = l := by
  induction l with
  | nil => rfl
  | cons e r ih => simp [observe, dequeue, ih]

theorem foldl_broadcast_queues (bad : ChanId → Bool) (c : ChanId) (hb : bad c = false)
    (es : List Event) : ∀ s : SysState, c ∈ s.subs →
    ((es.foldl (broadcast_event bad) s).queues c) = s.queues c ++ es := by
  induction es with
  | nil => intro s _; simp
  | cons e rest ih =>
    intro s hc
    rw [List.foldl_cons, ih (broadcast_event bad s e) hc,
      broadcast_queues_mem bad s e c hc hb]
    simp

/-- Claim C1: all events published while channel `c` is in the subscriber
set, in a state with arbitrary other channels, land at the tail of the
buffer of `c` in publish order, and the consumer dequeues them in exactly
that order with no reordering, duplication or drop. The hypothesis
`bad c = false` is the normal-operation case in which `put_nowait` does not
raise; `broadcast_event` never changes the subscriber set, so membership at
the start covers the whole publish sequence. -/
theorem fifo_delivery (bad : ChanId → Bool) (s : SysState) (c : ChanId)
    (es : List Event) (hc : c ∈ s.subs) (hb : bad c = false) :
    observe ((s.queues c).length + es.length)
      ((es.foldl (broadcast_event bad) s).queues c) = s.queues c ++ es := by
  rw [foldl_broadcast_queues bad c hb es s hc, ← List.length_append,
    observe_length_self]

/-- Witness for C1 at a concrete state: one subscribed channel, two published
events, both dequeued in publish order. -/
theorem fifo_delivery_witness :
    (0 : ChanId) ∈ (SysState.mk {0} (fun _ => [])).subs ∧
    observe 2 ((([Event.mk "a" [], Event.mk "b" []]).foldl
        (broadcast_event (fun _ => false)) (SysState.mk {0} (fun _ => []))).queues 0)
      = [Event.mk "a" [], Event.mk "b" []] :=
  ⟨by decide,
    fifo_delivery (fun _ => false) (SysState.mk {0} (fun _ => [])) 0
      [Event.mk "a" [], Event.mk "b" []] (by decide) rfl⟩

/-- Claim C3: when the enqueue of channel `c` raises, `broadcast_event`
still appends the event to every other subscribed channel whose enqueue does
not raise, skips `c`, and (being a total function into `SysState`) returns
without propagating the failure. -/
theorem broadcast_isolates_failure (bad : ChanId → Bool) (s : SysState)
    (e : Event) (c c' : ChanId) (hc : c ∈ s.subs) (hbad : bad c = true)
    (hc' : c' ∈ s.subs) (hgood : bad c' = false) :
    (broadcast_event bad s e).queues c' = s.queues c' ++ [e] ∧
    (broadcast_event bad s e).queues c = s.queues c := by
  exact ⟨broadcast_queues_mem bad s e c' hc' hgood,
    broadcast_queues_bad bad s e c hc hbad⟩

/-- Witness for C3: channel 0 fails, channel 1 still receives the event. -/
theorem broadcast_isolates_failure_witness :
    (0 : ChanId) ∈ ({0, 1} : Finset ChanId) ∧
    (broadcast_event (fun n => n == 0) (SysState.mk {0, 1} (fun _ => []))
        (Event.mk "x" [])).queues 1 = [Event.mk "x" []] ∧
    (broadcast_event (fun n => n == 0) (SysState.mk {0, 1} (fun _ => []))
        (Event.mk "x" [])).queues 0 = [] :=
  ⟨by decide,
    (broadcast_isolates_failure (fun n => n == 0)
      (SysState.mk {0, 1} (fun _ => [])) (Event.mk "x" []) 0 1
      (by decide) rfl (by decide) rfl).1,
    (broadcast_isolates_failure (fun n => n == 0)
      (SysState.mk {0, 1} (fun _ => [])) (Event.mk "x" []) 0 1
      (by decide) rfl (by decide) rfl).2⟩

/-- Claim C7: unregistering the same channel twice leaves the same state as
unregistering it once; the second `subscribers.discard(q)` is a no-op. -/
theorem unregister_idem (s : SysState) (c : ChanId) :
    unregister (unregister s c) c = unregister s c := by
  simp [unregister, Finset.erase_idem]

/-- Claim C6: after a channel is unregistered, a publish leaves that
channel buffer untouched, and the publish itself is a total operation that
only erases nothing further from the set. -/
theorem unregister_then_broadcast (bad : ChanId → Bool) (s : SysState)
    (c : ChanId) (e : Event) :
    (broadcast_event bad (unregister s c) e).queues c = s.queues c ∧
    (broadcast_event bad (unregister s c) e).subs = s.subs.erase c := by
  constructor
  · exact broadcast_queues_not_mem bad (unregister s c) e c (Finset.not_mem_erase c s.subs)
  · rfl

/-- Claim C2 evaluation: the model of the suspended consumer shows that a
`q.get()` with the buffer empty stays suspended after any number of steps in
which nothing is enqueued. The program gives the claimed behaviour no
mechanism: `queue.Queue` has no close operation, the handler never calls
`q.get` with a timeout, and `ConsumerState` has no closed outcome to
return. -/
theorem dequeue_blocking_never_unblocks (n : Nat) :
    consumerStep^[n] (ConsumerState.waiting []) = ConsumerState.waiting [] := by
  induction n with
  | zero => rfl
  | succ n ih => rw [Function.iterate_succ_apply]; exact ih

/-- Claim C4: a fresh stream connection always yields the `connected` frame
as its first item, and an event published before the channel of that
connection existed is never in the buffer the new channel starts from, so
it is never delivered on the new connection. -/
theorem connected_first_no_replay (bad : ChanId → Bool) (s : SysState)
    (e : Event) (c : ChanId) (ds : List Event) (hc : c ∉ s.subs) :
    (stream ds).head? = some (sseFrame connectedEvent) ∧
    (register (broadcast_event bad s e) c).queues c = [] := by
  constructor
  · rfl
  · simp [register]

/-- Witness for C4: a fresh channel 1 opened after an event went to
channel 0 starts empty, and the first frame is the connected frame. -/
theorem connected_first_no_replay_witness :
    (1 : ChanId) ∉ (SysState.mk {0} (fun _ => [])).subs ∧
    (stream []).head? = some (sseFrame connectedEvent) ∧
    (register (broadcast_event (fun _ => false)
        (SysState.mk {0} (fun _ => [])) (Event.mk "early" [])) 1).queues 1 = [] :=
  ⟨by decide,
    (connected_first_no_replay (fun _ => false) (SysState.mk {0} (fun _ => []))
      (Event.mk "early" []) 1 [] (by decide)).1,
    (connected_first_no_replay (fun _ => false) (SysState.mk {0} (fun _ => []))
      (Event.mk "early" []) 1 [] (by decide)).2⟩

/-- Claim C5: whatever the exit reason and however many frames were written,
the handler lifetime ends with the channel erased from the subscriber set
exactly once (the `finally` clause runs `subscribers.discard(q)` on every
exit path), so the registry never retains the channel of a finished
consumer. -/
theorem handler_always_unregisters (s : SysState) (c : ChanId)
    (ds : List Event) (k : Nat) (r : ExitReason) :
    (runHandler s c ds k r).2.subs = s.subs.erase c ∧
    c ∉ (runHandler s c ds k r).2.subs := by
  cases r with
  | remoteDisconnect => exact ⟨rfl, Finset.not_mem_erase c s.subs⟩
  | serverShutdown => exact ⟨rfl, Finset.not_mem_erase c s.subs⟩
  | writeFailure => exact ⟨rfl, Finset.not_mem_erase c s.subs⟩

/-- Claim C8: a publish against an empty subscriber set leaves the state
exactly as it was (no buffer changes, nothing retained), and a channel
registered afterwards starts with an empty buffer, so the earlier event is
never delivered to it. -/
theorem broadcast_empty_noop (bad : ChanId → Bool) (s : SysState) (e : Event)
    (c : ChanId) (h : s.subs = ∅) :
    broadcast_event bad s e = s ∧
    (register (broadcast_event bad s e) c).queues c = [] := by
  constructor
  · exact SysState.ext rfl
      (funext fun x => broadcast_queues_not_mem bad s e x (by simp [h]))
  · simp [register]

/-- Witness for C8: publishing to an empty registry is the identity and a
later registration starts from an empty buffer. -/
theorem broadcast_empty_noop_witness :
    (SysState.mk ∅ (fun _ => [])).subs = ∅ ∧
    broadcast_event (fun _ => false) (SysState.mk ∅ (fun _ => []))
      (Event.mk "x" []) = SysState.mk ∅ (fun _ => []) ∧
    (register (broadcast_event (fun _ => false) (SysState.mk ∅ (fun _ => []))
        (Event.mk "x" [])) 0).queues 0 = [] :=
  ⟨rfl,
    (broadcast_empty_noop (fun _ => false) (SysState.mk ∅ (fun _ => []))
      (Event.mk "x" []) 0 rfl).1,
    (broadcast_empty_noop (fun _ => false) (SysState.mk ∅ (fun _ => []))
      (Event.mk "x" []) 0 rfl).2⟩

/-- Claim C9: the frame the stream handler writes is a pure function of the
two fields of the event and has exactly the shape the spec gives, and the
stream writes one frame per delivered event (plus the leading connected
frame). -/
theorem sse_wire_format (e : Event) (ds : List Event) :
    sseFrame e = specWireFrame e ∧
    stream ds = specWireFrame connectedEvent :: ds.map specWireFrame := by
  have hframe : ∀ ev : Event, sseFrame ev = specWireFrame ev := by
    intro ev
    simp only [sseFrame, dumps, dumpsPayload, specWireFrame,
      joinComma_map_dumpsPair]
  exact ⟨hframe e, by simp only [stream, hframe, List.map_congr_left fun a _ => hframe a]⟩

/-- Claim C10: with `TWILIO_NUMBER_A` non-empty, the response of
`inbound_b` holds no Dial verb at all, while `inbound_a` with
`TWILIO_NUMBER_B` non-empty appends its Dial; both handlers publish the
same `incoming_call` event regardless of which response branch runs (the
publish happens before the response is built in the source), and a missing
form field reads as the empty string. -/
theorem inbound_b_drops_dial (numA numB : String)
    (form : List (String × String)) (k : String) (hA : numA ≠ "") :
    (inbound_b numA numB form).2.verbs = [] ∧
    (numB ≠ "" → (inbound_a numA numB form).2.verbs = [Verb.dialNumber numA numB]) ∧
    (inbound_b numA numB form).1 =
      Event.mk "incoming_call" (incomingPayload form "B") ∧
    (inbound_a numA numB form).1 =
      Event.mk "incoming_call" (incomingPayload form "A") ∧
    formGet [] k = "" := by
    refine ⟨by simp [inbound_b, hA], fun hB => by simp [inbound_a, hB], ?_, ?_, rfl⟩
    · by_cases hA2 : numA = "" <;> simp [inbound_b, hA2]
    · by_cases hB : numB = "" <;> simp [inbound_a, hB]

/-- Witness for C10 at concrete numbers and an empty form. -/
theorem inbound_b_drops_dial_witness :
    ("+15550001" : String) ≠ "" ∧
    (inbound_b "+15550001" "+15550002" []).2.verbs = [] ∧
    ((("+15550002" : String) ≠ "") → (inbound_a "+15550001" "+15550002" []).2.verbs
      = [Verb.dialNumber "+15550001" "+15550002"]) :=
  ⟨by decide,
    (inbound_b_drops_dial "+15550001" "+15550002" [] "From" (by decide)).1,
    (inbound_b_drops_dial "+15550001" "+15550002" [] "From" (by decide)).2.1⟩
